import Mathlib

/-!
# The Lotus TCG — verification of spec claims against the source

Shallow embedding of the parts of the `lotustcg` repository that the
frozen claims C1–C10 are about:

* the credit service's `apply_credits` auto mode (C1) — `credit_service.py`
  is imported by `routes.py` but is not present in the source tree, so it is
  modelled from the specification;
* the admin order-rejection stock restoration in `routes.py` (C2);
* the database-backed card storage's CSV import in `storage_db.py` (C3, C4);
* `User.can_login` in `models.py` and the login route in `routes.py` (C5);
* `InventoryItem.update_verification_status` in `models.py` (C6);
* `get_redirect_target` in `deployment_package/auth.py` (C7);
* the metrics counter's `render_prom` in `metrics.py` (C8);
* the `is_verified` / `verification_status` coherence across inventory
  operations (C9);
* the checkout coupon application step in `routes.py` (C10).

Python machine details are modelled as follows: Python `int` is `Int`
(arbitrary precision, so no wrap-around), `float` values that only ever
hold decimals are `Rat`, `None`-able columns are `Option`, `datetime`
values are abstract `Nat` instants ordered by `<`, and raised exceptions
are explicit error results.
-/

namespace LotusTCG

/-! ## C1 — Credit service `apply_credits`, auto mode

Modelled from the spec: `credit_service.apply_credits` (§4.6) — the module
`credit_service.py` is imported by `routes.py` and `scripts/` but its source
is not in the repository, so the auto-mode computation is modelled from the
spec's words: "In `auto` mode, greedily decomposes the amount due using the
descending canonical denominations (100,000 / 10,000 / 1,000) against the
user's actually-available unit counts per denomination (cannot apply more
units of a denomination than the user holds), stopping once the amount due
is covered or holdings are exhausted". -/

/-- A user's verified CREDIT holdings: unit counts for the three canonical
denominations 100,000 / 10,000 / 1,000 VND. -/
structure CreditHoldings where
  units100k : Nat
  units10k : Nat
  units1k : Nat
deriving Repr, DecidableEq

/-- Result of the auto-mode credit application: the breakdown of units
consumed per canonical denomination, the total VND applied, and the
remaining amount due (the shortfall). -/
structure AutoApplyResult where
  use100k : Nat
  use10k : Nat
  use1k : Nat
  appliedVnd : Nat
  remainingVnd : Nat
deriving Repr, DecidableEq

/-- Modelled from the spec: the auto-mode greedy decomposition of
`credit_service.apply_credits`. Denominations are visited in descending
canonical order; at each denomination the number of units taken is the
largest count that neither exceeds the user's holdings nor overshoots the
amount still due. -/
def applyCreditsAuto (h : CreditHoldings) (due : Nat) : AutoApplyResult :=
  let u1 := min h.units100k (due / 100000)
  let r1 := due - 100000 * u1
  let u2 := min h.units10k (r1 / 10000)
  let r2 := r1 - 10000 * u2
  let u3 := min h.units1k (r2 / 1000)
  let r3 := r2 - 1000 * u3
  { use100k := u1, use10k := u2, use1k := u3
    appliedVnd := due - r3, remainingVnd := r3 }

end LotusTCG

namespace LotusTCG

/-- **C1.** In auto (non-preview) mode, `apply_credits` applies credit by
greedy decomposition over 100,000 / 10,000 / 1,000 in descending order:
it never uses more units of a denomination than the user holds, the applied
amount is exactly the VND value of the breakdown and never exceeds the
amount due, the reported remaining amount is the shortfall
`due - applied`, and the applied amount is the maximum amount `≤ due`
coverable with the held units (so when the exact amount cannot be reached,
the maximum coverable amount is applied). -/
theorem applyCreditsAuto_greedy_max (h : CreditHoldings) (due : Nat) :
    (applyCreditsAuto h due).use100k ≤ h.units100k ∧
    (applyCreditsAuto h due).use10k ≤ h.units10k ∧
    (applyCreditsAuto h due).use1k ≤ h.units1k ∧
    (applyCreditsAuto h due).appliedVnd =
      100000 * (applyCreditsAuto h due).use100k +
      10000 * (applyCreditsAuto h due).use10k +
      1000 * (applyCreditsAuto h due).use1k ∧
    (applyCreditsAuto h due).appliedVnd ≤ due ∧
    (applyCreditsAuto h due).remainingVnd = due - (applyCreditsAuto h due).appliedVnd ∧
    (∀ a b c : Nat, a ≤ h.units100k → b ≤ h.units10k → c ≤ h.units1k →
      100000 * a + 10000 * b + 1000 * c ≤ due →
      100000 * a + 10000 * b + 1000 * c ≤ (applyCreditsAuto h due).appliedVnd) := by
  simp only [applyCreditsAuto]
  refine ⟨?_, ?_, ?_, ?_, ?_, ?_, ?_⟩ <;> omega

/-- **C1 witness.** The theorem applied to the spec's example: holdings
2×100,000 + 1×10,000 + 5×1,000 against an amount due of 150,000 — the
maximum coverable amount 115,000 is applied (1×100,000 + 1×10,000 +
5×1,000) and the shortfall 35,000 is reported as remaining. -/
theorem applyCreditsAuto_greedy_max_witness :
    (applyCreditsAuto ⟨2, 1, 5⟩ 150000).use100k ≤ 2 ∧
    (applyCreditsAuto ⟨2, 1, 5⟩ 150000).appliedVnd = 115000 ∧
    (applyCreditsAuto ⟨2, 1, 5⟩ 150000).remainingVnd = 35000 ∧
    (100000 * 1 + 10000 * 1 + 1000 * 5 ≤
      (applyCreditsAuto ⟨2, 1, 5⟩ 150000).appliedVnd) :=
  ⟨(applyCreditsAuto_greedy_max ⟨2, 1, 5⟩ 150000).1, by decide, by decide,
   (applyCreditsAuto_greedy_max ⟨2, 1, 5⟩ 150000).2.2.2.2.2.2 1 1 5
     (by decide) (by decide) (by decide) (by decide)⟩

/-! ## C7 — `get_redirect_target` (deployment_package/auth.py)

```python
def get_redirect_target():
    for target in request.values.get('next'), request.referrer:
        if not target:
            continue
        # Basic security check - ensure redirect is relative
        if target.startswith('/') and not target.startswith('//'):
            return target
    return None
```

The two request-derived candidates are passed explicitly. Python string
falsiness (`None` or `""`) skips a candidate; `str.startswith` is modelled
as a character-list `isPrefixOf` check. -/

/-- Python `s.startswith(pre)` on the characters of the strings. -/
def pyStartswith (s pre : String) : Bool :=
  pre.data.isPrefixOf s.data

/-- The per-candidate acceptance check of `get_redirect_target`: the
candidate must begin with `/` but not with `//`. -/
def redirectAccept (t : String) : Bool :=
  pyStartswith t "/" && !(pyStartswith t "//")

/-- `get_redirect_target` from `deployment_package/auth.py`: scans the
`next` request parameter and then the HTTP referrer, skipping absent/empty
candidates, and returns the first candidate passing `redirectAccept`
(falling through to the next candidate otherwise), or `none`. -/
def get_redirect_target (nextParam referrer : Option String) : Option String :=
  ([nextParam, referrer].filterMap id).find? (fun t => !(t == "") && redirectAccept t)

/-- **C7** (behaviour of the code at the claim's inputs). `get_redirect_target`
returns `next=/admin` unchanged, rejects the protocol-relative `//evil.com`,
and rejects the external absolute URL `http://evil.com/x`; but for an
absolute same-host URL (`http://localhost/admin`, whether supplied as `next`
or as the referrer) it does NOT normalize the value to its path-only form
`/admin` — it skips the candidate entirely and returns `none`. The claim
(and the repository's own tests `test_get_redirect_target_with_referrer`
and `test_get_redirect_target_absolute_next_param`, which expect `/admin`)
therefore disagrees with the code on the same-host-absolute case. -/
theorem get_redirect_target_eval :
    get_redirect_target (some "/admin") none = some "/admin" ∧
    get_redirect_target (some "//evil.com") none = none ∧
    get_redirect_target (some "http://evil.com/x") none = none ∧
    get_redirect_target none none = none ∧
    get_redirect_target (some "http://localhost/admin") none = none ∧
    get_redirect_target none (some "http://localhost/admin") = none := by
  decide

/-! ## C5 — login-time account-status check

`User.can_login` (models.py lines 71–83) implements lazy reactivation of an
expired suspension; the login route (routes.py line 1375) authenticates with
`user and user.check_password(password) and user.is_active()` — it calls
`is_active`, not `can_login`. `datetime` instants are modelled as `Nat`. -/

/-- The account-status slice of the `User` model. -/
structure UserAccount where
  account_status : String
  suspension_reason : Option String
  suspension_expires : Option Nat
deriving Repr, DecidableEq

/-- `User.is_active` from models.py. -/
def UserAccount.is_active (u : UserAccount) : Bool :=
  u.account_status == "active"

/-- `User.is_suspended` from models.py. -/
def UserAccount.is_suspended (u : UserAccount) : Bool :=
  u.account_status == "suspended"

/-- `User.is_banned` from models.py. -/
def UserAccount.is_banned (u : UserAccount) : Bool :=
  u.account_status == "banned"

/-- `User.can_login` from models.py: banned never logs in; a suspended
account with a suspension expiry in the past is lazily reactivated to
`active` (clearing reason and expiry) before the final `is_active` check.
Returns the decision together with the possibly mutated account.
`now` stands for `datetime.utcnow()`. -/
def UserAccount.can_login (u : UserAccount) (now : Nat) : Bool × UserAccount :=
  if u.is_banned then (false, u)
  else if u.is_suspended && u.suspension_expires.isSome then
    match u.suspension_expires with
    | some expires =>
      if now < expires then (false, u)
      else
        let u' : UserAccount :=
          { account_status := "active", suspension_reason := none, suspension_expires := none }
        (u'.is_active, u')
    | none => (u.is_active, u)
  else (u.is_active, u)

/-- The authentication condition of the login route (routes.py line 1375):
`user and user.check_password(password) and user.is_active()`. The password
check outcome is passed as a boolean. -/
def login_authenticates (user : Option UserAccount) (passwordOk : Bool) : Bool :=
  match user with
  | none => false
  | some u => passwordOk && u.is_active

/-- A suspended user whose suspension expired at instant 5 (checked at
instant 10, with the correct password). -/
def expiredSuspensionUser : UserAccount :=
  { account_status := "suspended", suspension_reason := some "abuse",
    suspension_expires := some 5 }

/-- **C5** (behaviour of the code at the claim's inputs). A banned user and
a not-yet-expired suspended user can never authenticate, as the claim says;
but a suspended user whose `suspension_expires` has passed is still denied
by the login route, because the route checks `is_active()` and never runs
the `can_login` lazy-reactivation check — even though `can_login` itself
(conjuncts 4 and 5) would allow the login and reactivate the account to
`active`, exactly as the claim describes. -/
theorem login_expired_suspension_eval :
    login_authenticates
      (some { account_status := "banned", suspension_reason := none,
              suspension_expires := none }) true = false ∧
    login_authenticates
      (some { account_status := "suspended", suspension_reason := some "abuse",
              suspension_expires := some 20 }) true = false ∧
    login_authenticates (some expiredSuspensionUser) true = false ∧
    (expiredSuspensionUser.can_login 10).1 = true ∧
    (expiredSuspensionUser.can_login 10).2.account_status = "active" := by
  decide

/-! ## C8 — metrics counter `render_prom` (metrics.py)

```python
def render_prom(self) -> str:
    lines = []
    for k, v in sorted(self._values.items()):
        metric = k.replace('.', '_')
        lines.append(f"# TYPE {metric} counter")
        lines.append(f"{metric} {v}")
    return "\n".join(lines) + "\n"
```

The counter dictionary is modelled as an association list of
(name, count) pairs with distinct names; Python's `sorted` on dict items
(which, for distinct keys, orders by key) is modelled by insertion sort on
the name. `str.join` is modelled by `pyJoin`. -/

/-- Insert a (name, count) pair into a name-sorted list, before the first
entry with a strictly larger name. -/
def insertByName (p : String × Int) : List (String × Int) → List (String × Int)
  | [] => [p]
  | q :: rest => if p.1 < q.1 then p :: q :: rest else q :: insertByName p rest

/-- Python's `sorted` over dict items with distinct keys: sort the pairs by
name. -/
def sortByName : List (String × Int) → List (String × Int)
  | [] => []
  | p :: rest => insertByName p (sortByName rest)

/-- Python's `sep.join(lines)`: the lines interleaved with the separator
(and the empty string for no lines). -/
def pyJoin (sep : String) : List String → String
  | [] => ""
  | [x] => x
  | x :: xs => x ++ sep ++ pyJoin sep xs

/-- The metric name in the exposition: the counter name with every `.`
replaced by `_`. -/
def promMetricName (k : String) : String :=
  k.replace "." "_"

/-- The exposition lines accumulated by the loop of `render_prom`: for each
counter, a `# TYPE <metric> counter` comment line directly followed by the
`<metric> <value>` sample line. -/
def promLines : List (String × Int) → List String
  | [] => []
  | kv :: rest =>
    ("# TYPE " ++ promMetricName kv.1 ++ " counter") ::
    (promMetricName kv.1 ++ " " ++ toString kv.2) :: promLines rest

/-- `_Counter.render_prom` from metrics.py. -/
def render_prom (values : List (String × Int)) : String :=
  pyJoin "\n" (promLines (sortByName values)) ++ "\n"

/-- Concatenation of a list of lines with each line terminated by a
newline. -/
def terminatedLines : List String → String
  | [] => ""
  | l :: rest => l ++ "\n" ++ terminatedLines rest

theorem insertByName_perm (p : String × Int) (l : List (String × Int)) :
    List.Perm (insertByName p l) (p :: l) := by
  induction l with
  | nil => simp [insertByName]
  | cons q rest ih =>
    by_cases h : p.1 < q.1
    · simp [insertByName, h]
    · simp only [insertByName, if_neg h]
      exact (ih.cons q).trans (List.Perm.swap p q rest)

theorem sortByName_perm (l : List (String × Int)) : List.Perm (sortByName l) l := by
  induction l with
  | nil => simp [sortByName]
  | cons p rest ih =>
    exact (insertByName_perm p (sortByName rest)).trans (ih.cons p)

theorem insertByName_sorted (p : String × Int) (l : List (String × Int))
    (h : l.Pairwise (fun a b => a.1 ≤ b.1)) :
    (insertByName p l).Pairwise (fun a b => a.1 ≤ b.1) := by
  induction l with
  | nil => simp [insertByName]
  | cons q rest ih =>
    rcases List.pairwise_cons.1 h with ⟨hq, hrest⟩
    by_cases hlt : p.1 < q.1
    · simp only [insertByName, if_pos hlt]
      refine List.pairwise_cons.2 ⟨?_, h⟩
      intro a ha
      rcases List.mem_cons.1 ha with rfl | ha
      · exact le_of_lt hlt
      · exact le_trans (le_of_lt hlt) (hq a ha)
    · simp only [insertByName, if_neg hlt]
      refine List.pairwise_cons.2 ⟨?_, ih hrest⟩
      intro a ha
      have := (insertByName_perm p rest).mem_iff.1 ha
      rcases List.mem_cons.1 this with rfl | ha'
      · exact le_of_not_lt hlt
      · exact hq a ha'

theorem sortByName_sorted (l : List (String × Int)) :
    (sortByName l).Pairwise (fun a b => a.1 ≤ b.1) := by
  induction l with
  | nil => simp [sortByName]
  | cons p rest ih => exact insertByName_sorted p (sortByName rest) ih

theorem pyJoin_newline_terminated (l : List String) (h : l ≠ []) :
    pyJoin "\n" l ++ "\n" = terminatedLines l := by
  induction l with
  | nil => exact absurd rfl h
  | cons x xs ih =>
    cases xs with
    | nil =>
      apply String.ext
      simp [pyJoin, terminatedLines, String.data_append]
    | cons y ys =>
      apply String.ext
      have hd := congrArg String.data (ih (by simp))
      simp only [String.data_append] at hd
      simp only [pyJoin, String.data_append, List.append_assoc]
      rw [hd]
      simp [terminatedLines, String.data_append, List.append_assoc]

theorem promLines_foldr (l : List (String × Int)) :
    promLines l = l.foldr (fun kv acc =>
      ("# TYPE " ++ kv.1.replace "." "_" ++ " counter") ::
      (kv.1.replace "." "_" ++ " " ++ toString kv.2) :: acc) [] := by
  induction l with
  | nil => rfl
  | cons kv rest ih => simp [promLines, promMetricName, ih]

theorem promLines_ne_nil (l : List (String × Int)) (h : l ≠ []) :
    promLines l ≠ [] := by
  cases l with
  | nil => exact absurd rfl h
  | cons kv rest => simp [promLines]

/-- The full statement of claim C8 for one counter state `values`. -/
def RenderPromSpec (values : List (String × Int)) : Prop :=
  render_prom values = terminatedLines (promLines (sortByName values)) ∧
  (sortByName values).Pairwise (fun a b => a.1 ≤ b.1) ∧
  List.Perm (sortByName values) values ∧
  promLines (sortByName values) = (sortByName values).foldr (fun kv acc =>
    ("# TYPE " ++ kv.1.replace "." "_" ++ " counter") ::
    (kv.1.replace "." "_" ++ " " ++ toString kv.2) :: acc) [] ∧
  ∃ s, render_prom values = s ++ "\n"

/-- **C8.** For every (non-empty) state of the metrics counter, `render_prom`
lists exactly the counters (a permutation of the state), sorted by name,
with every `.` in a name replaced by `_`, each sample line directly preceded
by its `# TYPE ... counter` type-declaration comment line, each line
terminated by a newline, and the output ending in a final newline — i.e. a
trailing blank line when the exposition is split on newlines. -/
theorem render_prom_exposition (values : List (String × Int)) (h : values ≠ []) :
    RenderPromSpec values := by
  have hsort : sortByName values ≠ [] := by
    intro hnil
    have := (sortByName_perm values).length_eq
    rw [hnil] at this
    cases values with
    | nil => exact h rfl
    | cons a l => simp at this
  refine ⟨?_, sortByName_sorted values, sortByName_perm values, promLines_foldr _, ?_⟩
  · exact pyJoin_newline_terminated _ (promLines_ne_nil _ hsort)
  · exact ⟨pyJoin "\n" (promLines (sortByName values)), rfl⟩

/-- **C8 witness.** The theorem applied to the concrete one-counter state
`{"credit.issue": 2}`. -/
theorem render_prom_exposition_witness :
    ([(("credit.issue" : String), (2 : Int))] ≠ []) ∧
    RenderPromSpec [("credit.issue", 2)] :=
  ⟨by decide, render_prom_exposition [("credit.issue", 2)] (by decide)⟩

/-! ## C6 / C9 — inventory-item verification (models.py, routes.py)

The `InventoryItem` slice relevant to verification, the per-item
`update_verification_status` method (models.py lines 485–524), the per-item
part of `User._sync_inventory_verification_status` (models.py lines
119–164), and the three creation/merge paths of the
`POST /api/inventory/add-item` route (routes.py). -/

/-- The verification-relevant slice of the `InventoryItem` model. -/
structure InvItem where
  id : Nat
  inventory_id : Nat
  card_id : Nat
  quantity : Int
  condition : String
  verification_status : String
  is_verified : Bool
  verified_at : Option Nat
  verified_by : Option Nat
  notes : Option String
  grade : Option String
  language : Option String
  foil_type : Option String
  is_mint : Bool
  updated_at : Option Nat
deriving Repr, DecidableEq

/-- A `VerificationAuditLog` row (the `user_agent` argument of `create_log`
is accepted but not stored by the model and is omitted). -/
structure VerAuditLog where
  inventory_item_id : Nat
  admin_id : Nat
  action : String
  previous_status : Option Bool
  new_status : Option Bool
  notes : Option String
  ip_address : Option String
deriving Repr, DecidableEq

/-- `status_to_bool` from `VerificationAuditLog.create_log`: the tri-state
boolean storage of a verification status (`verified` ↦ true, `unverified`
↦ false, `pending` and anything unknown ↦ NULL). -/
def status_to_bool (status : String) : Option Bool :=
  if status == "verified" then some true
  else if status == "unverified" then some false
  else none

/-- Outcome of `InventoryItem.update_verification_status`: the exception
raised (if any), the state of the item when the call returns or raises, and
the audit-log rows written by the call. -/
structure UpdateStatusResult where
  raised : Option String
  item : InvItem
  logs : List VerAuditLog
deriving Repr, DecidableEq

/-- The mutation part of `InventoryItem.update_verification_status`: set
the status, mirror `is_verified`, maintain `verified_at`/`verified_by`,
refresh `updated_at`. -/
def applyVerificationStatus (item : InvItem) (new_status : String)
    (admin_id : Nat) (now : Nat) : InvItem :=
  let item1 := { item with
    verification_status := new_status
    is_verified := new_status == "verified" }
  let item2 :=
    if new_status == "verified" then
      { item1 with verified_at := some now, verified_by := some admin_id }
    else if new_status == "unverified" then
      { item1 with verified_at := none, verified_by := none }
    else item1
  { item2 with updated_at := some now }

/-- `InventoryItem.update_verification_status` from models.py: raises (before
any mutation and before any audit row) when the owner's account is not
active and the new status is `verified`; otherwise updates the item and
writes exactly one `status_change` audit row via
`VerificationAuditLog.create_log`. `owner` is the item's owning user
(`none` when the item has no resolvable owner, in which case the guard is
skipped, as in the source's `if owner and not owner.is_active()`). -/
def update_verification_status (item : InvItem) (owner : Option UserAccount)
    (new_status : String) (admin_id : Nat) (notes : Option String) (now : Nat) :
    UpdateStatusResult :=
  let old_status := item.verification_status
  let guardFires :=
    match owner with
    | some o => !o.is_active && new_status == "verified"
    | none => false
  if guardFires then
    { raised := some ("Cannot verify item: User account is " ++
        (match owner with | some o => o.account_status | none => ""))
      item := item, logs := [] }
  else
    { raised := none
      item := applyVerificationStatus item new_status admin_id now
      logs := [{ inventory_item_id := item.id, admin_id := admin_id
                 action := "status_change"
                 previous_status := status_to_bool old_status
                 new_status := status_to_bool new_status
                 notes := notes, ip_address := none }] }

/-- The per-item body of `User._sync_inventory_verification_status` from
models.py: items already at the target status are untouched (and produce no
audit row); otherwise the status is changed with the same field maintenance
as above and, when an acting admin is known, one `bulk_status_change` audit
row is written. -/
def syncItemStatus (new_status : String) (admin : Option Nat) (reason : Option String)
    (item : InvItem) (now : Nat) : InvItem × List VerAuditLog :=
  if item.verification_status == new_status then (item, [])
  else
    let old_status := item.verification_status
    let item1 := { item with
      verification_status := new_status
      is_verified := new_status == "verified" }
    let item2 :=
      if new_status == "verified" then
        { item1 with verified_at := some now, verified_by := admin }
      else if new_status == "unverified" then
        { item1 with verified_at := none, verified_by := none }
      else item1
    let item3 := { item2 with updated_at := some now }
    match admin with
    | some a =>
      (item3, [{ inventory_item_id := item.id, admin_id := a
                 action := "bulk_status_change"
                 previous_status := status_to_bool old_status
                 new_status := status_to_bool new_status
                 notes := reason, ip_address := none }])
    | none => (item3, [])

/-- The optional per-field payload of `POST /api/inventory/add-item`
(`data.get(...)` on the request JSON; `none` models an absent key). -/
structure AddItemData where
  condition : Option String
  notes : Option String
  grade : Option String
  language : Option String
  foil_type : Option String
  is_mint : Option Bool
deriving Repr, DecidableEq

/-- Python truthiness of `data.get(key)` for a string field: present and
non-empty. -/
def strTruthy : Option String → Bool
  | none => false
  | some s => !(s == "")

/-- The `add_inventory_item` route's fresh-item path (no existing line for
this card): a new unverified item with the documented field defaults. -/
def addNewItem (inventory_id card_id : Nat) (quantity : Int) (d : AddItemData)
    (now : Nat) (newId : Nat) : InvItem :=
  { id := newId, inventory_id := inventory_id, card_id := card_id
    quantity := quantity
    condition := d.condition.getD "Near Mint"
    verification_status := "unverified", is_verified := false
    verified_at := none, verified_by := none
    notes := some (d.notes.getD "")
    grade := d.grade
    language := some (d.language.getD "English")
    foil_type := some (d.foil_type.getD "Non Foil")
    is_mint := d.is_mint.getD false
    updated_at := some now }

/-- The `add_inventory_item` route's duplicate path (the user already holds
a verified line for this card): a separate new unverified line, fields
defaulted from the existing verified item. -/
def duplicateOfVerified (existing : InvItem) (quantity : Int) (d : AddItemData)
    (now : Nat) (newId : Nat) : InvItem :=
  { id := newId, inventory_id := existing.inventory_id, card_id := existing.card_id
    quantity := quantity
    condition := d.condition.getD existing.condition
    verification_status := "unverified", is_verified := false
    verified_at := none, verified_by := none
    notes := some (d.notes.getD ("Duplicate of verified item - " ++ existing.notes.getD ""))
    grade := match d.grade with | some g => some g | none => existing.grade
    language := match d.language with | some l => some l | none => existing.language
    foil_type := match d.foil_type with | some f => some f | none => existing.foil_type
    is_mint := d.is_mint.getD existing.is_mint
    updated_at := some now }

/-- The `add_inventory_item` route's merge path (the existing line for this
card is itself unverified): add the quantity and overwrite any truthy
supplied descriptive fields; the verification fields are not touched. -/
def mergeIntoUnverified (existing : InvItem) (quantity : Int) (d : AddItemData)
    (now : Nat) : InvItem :=
  { existing with
    quantity := existing.quantity + quantity
    condition := if strTruthy d.condition then d.condition.getD existing.condition
                 else existing.condition
    notes := if strTruthy d.notes then d.notes else existing.notes
    grade := if strTruthy d.grade then d.grade else existing.grade
    language := if strTruthy d.language then d.language else existing.language
    foil_type := if strTruthy d.foil_type then d.foil_type else existing.foil_type
    is_mint := d.is_mint.getD existing.is_mint
    updated_at := some now }

/-- **C6.** When the owning user's account is not active, changing the
verification status to `verified` raises the domain error, leaving the item
untouched and writing no audit row; and every call that does not raise
writes exactly one `status_change` audit row recording the previous and the
new status (in the tri-state boolean storage of `create_log`). -/
theorem update_verification_status_spec (item : InvItem) (o : UserAccount)
    (owner : Option UserAccount) (new_status : String) (admin_id : Nat)
    (notes : Option String) (now : Nat) :
    (o.is_active = false →
      (update_verification_status item (some o) "verified" admin_id notes now).raised.isSome = true ∧
      (update_verification_status item (some o) "verified" admin_id notes now).item = item ∧
      (update_verification_status item (some o) "verified" admin_id notes now).logs = []) ∧
    ((update_verification_status item owner new_status admin_id notes now).raised = none →
      (update_verification_status item owner new_status admin_id notes now).logs =
        [{ inventory_item_id := item.id, admin_id := admin_id
           action := "status_change"
           previous_status := status_to_bool item.verification_status
           new_status := status_to_bool new_status
           notes := notes, ip_address := none }]) := by
  constructor
  · intro hact
    simp [update_verification_status, hact]
  · intro hok
    match howner : owner with
    | none => simp [update_verification_status] at hok ⊢
    | some o' =>
      by_cases hguard : (!o'.is_active && new_status == "verified") = true
      · simp [update_verification_status, hguard] at hok
      · simp [update_verification_status, hguard] at hok ⊢

/-- A sample inventory item (pending verification). -/
def sampleItem : InvItem :=
  { id := 11, inventory_id := 4, card_id := 9, quantity := 2
    condition := "Near Mint", verification_status := "pending"
    is_verified := false, verified_at := none, verified_by := none
    notes := none, grade := none, language := some "English"
    foil_type := some "Non Foil", is_mint := false, updated_at := none }

/-- A suspended owner account. -/
def suspOwner : UserAccount :=
  { account_status := "suspended", suspension_reason := some "abuse"
    suspension_expires := some 99 }

/-- An active owner account. -/
def activeOwner : UserAccount :=
  { account_status := "active", suspension_reason := none
    suspension_expires := none }

/-- **C6 witness.** The theorem applied to a pending item owned by a
suspended account (refusal case) and by an active account (success case). -/
theorem update_verification_status_spec_witness :
    suspOwner.is_active = false ∧
    ((update_verification_status sampleItem (some suspOwner) "verified" 7 none 3).raised.isSome = true ∧
     (update_verification_status sampleItem (some suspOwner) "verified" 7 none 3).item = sampleItem ∧
     (update_verification_status sampleItem (some suspOwner) "verified" 7 none 3).logs = []) ∧
    (update_verification_status sampleItem (some activeOwner) "verified" 7 none 3).raised = none ∧
    (update_verification_status sampleItem (some activeOwner) "verified" 7 none 3).logs =
      [{ inventory_item_id := sampleItem.id, admin_id := 7
         action := "status_change"
         previous_status := status_to_bool sampleItem.verification_status
         new_status := status_to_bool "verified"
         notes := none, ip_address := none }] :=
  ⟨by decide,
   (update_verification_status_spec sampleItem suspOwner (some suspOwner) "verified" 7 none 3).1
     (by decide),
   by decide,
   (update_verification_status_spec sampleItem suspOwner (some activeOwner) "verified" 7 none 3).2
     (by decide)⟩

/-- The C9 coherence invariant: the backward-compatibility boolean mirrors
the tri-valued status. -/
def verificationCoherent (item : InvItem) : Prop :=
  item.is_verified = (item.verification_status == "verified")

/-- **C9.** Every operation that creates an inventory item or changes its
verification status keeps `is_verified` equal to
`verification_status == "verified"`: the fresh-item and duplicate paths of
the add-item route establish it outright, the merge path and
`update_verification_status` and the suspend/ban bulk cascade
(`_sync_inventory_verification_status`) preserve it. -/
theorem is_verified_mirrors_status :
    (∀ inventory_id card_id quantity d now newId,
      verificationCoherent (addNewItem inventory_id card_id quantity d now newId)) ∧
    (∀ existing quantity d now newId,
      verificationCoherent (duplicateOfVerified existing quantity d now newId)) ∧
    (∀ existing quantity d now, verificationCoherent existing →
      verificationCoherent (mergeIntoUnverified existing quantity d now)) ∧
    (∀ item owner new_status admin_id notes now, verificationCoherent item →
      verificationCoherent
        ((update_verification_status item owner new_status admin_id notes now).item)) ∧
    (∀ new_status admin reason item now, verificationCoherent item →
      verificationCoherent (syncItemStatus new_status admin reason item now).1) := by
  refine ⟨?_, ?_, ?_, ?_, ?_⟩
  · intro inventory_id card_id quantity d now newId
    simp [verificationCoherent, addNewItem]
  · intro existing quantity d now newId
    simp [verificationCoherent, duplicateOfVerified]
  · intro existing quantity d now h
    simpa [verificationCoherent, mergeIntoUnverified] using h
  · intro item owner new_status admin_id notes now h
    simp only [update_verification_status]
    split
    · simpa using h
    · simp only [verificationCoherent, applyVerificationStatus]
      split <;> simp_all
      split <;> simp_all
  · intro new_status admin reason item now h
    simp only [syncItemStatus]
    split
    · simpa using h
    · split <;> split <;> simp_all [verificationCoherent] <;>
        (try split <;> simp_all [verificationCoherent])

/-- An add-item request payload with every optional field absent. -/
def emptyAddData : AddItemData :=
  { condition := none, notes := none, grade := none, language := none
    foil_type := none, is_mint := none }

/-- **C9 witness.** The theorem applied to concrete items and payloads. -/
theorem is_verified_mirrors_status_witness :
    verificationCoherent sampleItem ∧
    verificationCoherent (addNewItem 1 2 3 emptyAddData 4 5) ∧
    verificationCoherent (mergeIntoUnverified sampleItem 2 emptyAddData 5) ∧
    verificationCoherent
      ((update_verification_status sampleItem (some activeOwner) "verified" 7 none 3).item) ∧
    verificationCoherent (syncItemStatus "unverified" (some 7) none sampleItem 5).1 :=
  ⟨by unfold verificationCoherent; decide,
   is_verified_mirrors_status.1 1 2 3 emptyAddData 4 5,
   is_verified_mirrors_status.2.2.1 sampleItem 2 emptyAddData 5
     (by unfold verificationCoherent; decide),
   is_verified_mirrors_status.2.2.2.1 sampleItem (some activeOwner) "verified" 7 none 3
     (by unfold verificationCoherent; decide),
   is_verified_mirrors_status.2.2.2.2 "unverified" (some 7) none sampleItem 5
     (by unfold verificationCoherent; decide)⟩

/-! ## C10 — coupon application at order placement (routes.py, models.py)

The coupon block of the checkout POST handler (routes.py lines 797–818):

```python
if 'applied_coupon_id' in session:
    coupon = Coupon.query.get(coupon_id)
    if coupon and coupon.is_active:
        discount_amount = total_amount * (discount_percentage / 100)
        final_total = total_amount - discount_amount
        coupon.usage_count += 1
```

and `Coupon.is_valid` (models.py lines 870–898). Monetary floats are
modelled as `Rat`. -/

/-- The `Coupon` model slice used by checkout and `is_valid`. -/
structure CouponRow where
  id : Nat
  code : String
  discount_percentage : Rat
  valid_from : Option Nat
  valid_until : Option Nat
  usage_limit : Option Int
  usage_count : Int
  is_active : Bool
deriving Repr, DecidableEq

/-- `Coupon.is_valid` from models.py: active, inside the validity window,
and below the usage limit. -/
def CouponRow.is_valid (c : CouponRow) (now : Nat) : Bool :=
  if !c.is_active then false
  else if (match c.valid_from with | some vf => decide (now < vf) | none => false) then false
  else if (match c.valid_until with | some vu => decide (vu < now) | none => false) then false
  else if (match c.usage_limit with
           | some lim => decide (lim ≤ c.usage_count)
           | none => false) then false
  else true

/-- Outcome of the coupon block of the checkout POST handler. -/
structure CouponStepResult where
  discount_amount : Rat
  final_total : Rat
  applied_coupon : Option CouponRow
deriving Repr, DecidableEq

/-- The coupon block of the checkout POST handler (routes.py). `staged` is
the coupon row looked up from the session's `applied_coupon_id` (`none`
when no coupon id is staged or the row no longer exists). The only check
performed is `coupon.is_active`; when it passes, the percentage discount is
deducted and the coupon's `usage_count` is incremented. -/
def checkoutApplyCoupon (staged : Option CouponRow) (total_amount : Rat) :
    CouponStepResult :=
  match staged with
  | some coupon =>
    if coupon.is_active then
      let discount := total_amount * (coupon.discount_percentage / 100)
      { discount_amount := discount
        final_total := total_amount - discount
        applied_coupon := some { coupon with usage_count := coupon.usage_count + 1 } }
    else
      { discount_amount := 0, final_total := total_amount, applied_coupon := none }
  | none => { discount_amount := 0, final_total := total_amount, applied_coupon := none }

/-- **C10.** At order placement a staged coupon is applied — percentage
discount deducted, `usage_count` incremented by one — exactly when the row
exists and `is_active` is true; the outcome does not depend on the validity
window or the usage limit, so in particular a staged coupon for which
`is_valid` is already false at placement time (expired or at its usage
limit) still discounts the order and still has its usage count
incremented. -/
theorem checkout_coupon_not_revalidated (c : CouponRow) (total : Rat) (now : Nat) :
    (c.is_active = true →
      checkoutApplyCoupon (some c) total =
        { discount_amount := total * (c.discount_percentage / 100)
          final_total := total - total * (c.discount_percentage / 100)
          applied_coupon := some { c with usage_count := c.usage_count + 1 } }) ∧
    (c.is_active = true → c.is_valid now = false →
      (checkoutApplyCoupon (some c) total).discount_amount =
        total * (c.discount_percentage / 100) ∧
      (checkoutApplyCoupon (some c) total).applied_coupon =
        some { c with usage_count := c.usage_count + 1 }) ∧
    (c.is_active = false →
      checkoutApplyCoupon (some c) total =
        { discount_amount := 0, final_total := total, applied_coupon := none }) ∧
    checkoutApplyCoupon none total =
      { discount_amount := 0, final_total := total, applied_coupon := none } := by
  refine ⟨?_, ?_, ?_, rfl⟩
  · intro hact
    simp [checkoutApplyCoupon, hact]
  · intro hact _
    simp [checkoutApplyCoupon, hact]
  · intro hact
    simp [checkoutApplyCoupon, hact]

/-- A coupon that is still active but expired at instant 10 and already at
its usage limit. -/
def staleCoupon : CouponRow :=
  { id := 3, code := "SAVE10", discount_percentage := 10
    valid_from := none, valid_until := some 5
    usage_limit := some 1, usage_count := 1, is_active := true }

/-- **C10 witness.** The theorem applied to `staleCoupon` (expired and at
its usage limit at instant 10, yet still active) and a 200 000 total: the
discount 20 000 is applied and the usage count still increments. -/
theorem checkout_coupon_not_revalidated_witness :
    staleCoupon.is_active = true ∧
    staleCoupon.is_valid 10 = false ∧
    (checkoutApplyCoupon (some staleCoupon) 200000).discount_amount =
      200000 * (staleCoupon.discount_percentage / 100) ∧
    (checkoutApplyCoupon (some staleCoupon) 200000).applied_coupon =
      some { staleCoupon with usage_count := staleCoupon.usage_count + 1 } :=
  ⟨by decide, by decide,
   (checkout_coupon_not_revalidated staleCoupon 200000 10).2.1 (by decide) (by decide)⟩

/-! ## C3 / C4 — `DatabaseStorage.process_csv_upload` (storage_db.py)

The CSV text → per-row dictionary parsing done by `csv.DictReader` is not
modelled; the import is modelled from the list of row dictionaries. A row's
numeric cell is either absent from the row (the `row.get(key, 0)` default
applies), a value Python's `float()`/`int()` accepts, or a string they
reject. The Python locals `row_num` and `quantity` of the loop body are
threaded through the loop state — in the source the `except` branch of the
quantity parse appends an error but, unlike the name and price checks, has
no `continue`, so the row keeps going with `quantity` still bound to the
most recently parsed value (or unbound on the first such row, raising
`UnboundLocalError` into the outer per-row `except`). -/

/-- A CSV cell for a numeric column. -/
inductive NumCell (α : Type) where
  | missing
  | val (x : α)
  | bad (s : String)
deriving Repr, DecidableEq

/-- A catalog card row (the columns used by the storage layer). -/
structure Card where
  id : Nat
  name : String
  set_name : String
  rarity : String
  condition : String
  price : Rat
  quantity : Int
  description : String
  image_url : String
  foiling : String
  art_style : String
  is_deleted : Bool
deriving Repr, DecidableEq

/-- Python `s.strip()`: drop leading and trailing whitespace. -/
def pyStrip (s : String) : String :=
  ⟨(((s.data.dropWhile Char.isWhitespace).reverse.dropWhile Char.isWhitespace)).reverse⟩

/-- A CSV data row as produced by `csv.DictReader`: `none` models a column
absent from the header. `image` is the value of the first truthy key among
the accepted image-URL header spellings (`_IMAGE_URL_KEYS`; the iteration
order of that Python set is unspecified, so only the resolved value is
modelled). -/
structure CsvRow where
  name : Option String
  set_name : Option String
  rarity : Option String
  condition : Option String
  price : NumCell Rat
  quantity : NumCell Int
  description : Option String
  image : Option String
  foiling : Option String
  art_style : Option String
deriving Repr, DecidableEq

/-- The `card_data` dictionary built for one CSV row. -/
structure CardData where
  name : String
  set_name : String
  rarity : String
  condition : String
  price : Rat
  quantity : Int
  description : String
  image_url : String
  foiling : String
  art_style : String
deriving Repr, DecidableEq

/-- `card_data` construction from the row (defaults and stripping as in the
source; `image_url or ''`). -/
def rowCardData (row : CsvRow) (name : String) (price : Rat) (quantity : Int) :
    CardData :=
  { name := name
    set_name := pyStrip (row.set_name.getD "Unknown")
    rarity := pyStrip (row.rarity.getD "Common")
    condition := pyStrip (row.condition.getD "Near Mint")
    price := price
    quantity := quantity
    description := pyStrip (row.description.getD "")
    image_url := row.image.getD ""
    foiling := pyStrip (row.foiling.getD "NF")
    art_style := pyStrip (row.art_style.getD "normal") }

/-- The card table with the autoincrement id sequence. -/
structure DbState where
  cards : List Card
  next_id : Nat
deriving Repr, DecidableEq

/-- `DatabaseStorage.add_card`: persist a new card built from the row data
(`is_deleted` false, fresh id). -/
def add_card (st : DbState) (d : CardData) : DbState :=
  { cards := st.cards ++
      [{ id := st.next_id, name := d.name, set_name := d.set_name
         rarity := d.rarity, condition := d.condition, price := d.price
         quantity := d.quantity, description := d.description
         image_url := d.image_url, foiling := d.foiling
         art_style := d.art_style, is_deleted := false }]
    next_id := st.next_id + 1 }

/-- `DatabaseStorage.find_existing_card`: the first non-deleted card
matching all six identity fields. -/
def find_existing_card (cards : List Card)
    (name set_name rarity condition foiling art_style : String) : Option Card :=
  cards.find? (fun c =>
    c.name == name && c.set_name == set_name && c.rarity == rarity &&
    c.condition == condition && c.foiling == foiling &&
    c.art_style == art_style && !c.is_deleted)

/-- The per-card mutation of `DatabaseStorage.update_existing_card_quantity`:
add the additional quantity; overwrite price / description / image_url when
the supplied row data differs from what is stored. -/
def mergeCardFields (c : Card) (additional_quantity : Int) (d : CardData) : Card :=
  let c1 := { c with quantity := c.quantity + additional_quantity }
  let c2 := if !(d.price == c1.price) then { c1 with price := d.price } else c1
  let c3 := if !(d.description == c2.description) then
              { c2 with description := d.description } else c2
  if !(d.image_url == c3.image_url) then { c3 with image_url := d.image_url } else c3

/-- `DatabaseStorage.update_existing_card_quantity`: update the card with
the given id (returning whether it was found). -/
def update_existing_card_quantity (st : DbState) (card_id : Nat)
    (additional_quantity : Int) (d : CardData) : DbState × Bool :=
  if st.cards.any (fun c => c.id == card_id) then
    ({ st with cards := st.cards.map (fun c =>
        if c.id == card_id then mergeCardFields c additional_quantity d else c) },
     true)
  else (st, false)

/-- The result dictionary of `process_csv_upload`. -/
structure CsvUploadResults where
  success : Nat
  created : Nat
  updated : Nat
  errors : List String
  total : Nat
deriving Repr, DecidableEq

/-- The loop state of `process_csv_upload`: the storage, the result
counters, the `row_num` local, and the binding state of the Python local
`quantity` (none = not yet assigned in this call). -/
structure ImportLoopState where
  db : DbState
  results : CsvUploadResults
  rowNum : Nat
  quantityVar : Option Int
deriving Repr, DecidableEq

/-- Appends one error string to the results. -/
def pushError (s : ImportLoopState) (msg : String) : ImportLoopState :=
  { s with results := { s.results with errors := s.results.errors ++ [msg] } }

/-- The persistence tail of the loop body, after `name`, `price` and
`quantity` have been resolved: merge into a matching existing card
(counted `updated`) or create a new card (counted `created`). -/
def persistCsvRow (s : ImportLoopState) (row : CsvRow) (name : String)
    (price : Rat) (quantity : Int) : ImportLoopState :=
  let d := rowCardData row name price quantity
  match find_existing_card s.db.cards d.name d.set_name d.rarity d.condition
      d.foiling d.art_style with
  | some existing =>
    let (db', ok) := update_existing_card_quantity s.db existing.id quantity d
    if ok then
      { s with
        db := db'
        results := { s.results with
                     success := s.results.success + 1
                     updated := s.results.updated + 1 } }
    else
      pushError { s with db := db' }
        ("Row " ++ toString s.rowNum ++ ": failed to update existing card")
  | none =>
    { s with
      db := add_card s.db d
      results := { s.results with
                   success := s.results.success + 1
                   created := s.results.created + 1 } }

/-- One iteration of the `process_csv_upload` row loop, faithful to the
source's control flow: missing name and unparsable price append an error
and skip the row; an unparsable quantity appends its error but does NOT
skip — the row is persisted with the previously bound `quantity` value, or
aborts into the outer per-row handler with an `UnboundLocalError` when no
previous row ever bound it. -/
def processCsvRow (s0 : ImportLoopState) (row : CsvRow) : ImportLoopState :=
  let s := { s0 with
             rowNum := s0.rowNum + 1
             results := { s0.results with total := s0.results.total + 1 } }
  let name := pyStrip (row.name.getD "")
  if name == "" then
    pushError s ("Row " ++ toString s.rowNum ++ ": missing card name")
  else
    match row.price with
    | .bad ps =>
      pushError s ("Row " ++ toString s.rowNum ++ ": invalid price \"" ++ ps ++ "\"")
    | pcell =>
      let price : Rat := match pcell with | .val q => q | _ => 0
      match row.quantity with
      | .missing => persistCsvRow { s with quantityVar := some 0 } row name price 0
      | .val n => persistCsvRow { s with quantityVar := some n } row name price n
      | .bad qs =>
        let s1 := pushError s
          ("Row " ++ toString s.rowNum ++ ": invalid quantity \"" ++ qs ++ "\"")
        match s1.quantityVar with
        | some stale => persistCsvRow s1 row name price stale
        | none =>
          -- UnboundLocalError from building card_data, caught by the outer
          -- per-row `except Exception`, which appends `Row {n}: {e}`
          pushError s1 ("Row " ++ toString s1.rowNum ++
            ": cannot access local variable quantity" ++
            " where it is not associated with a value")

/-- `DatabaseStorage.process_csv_upload`, from the parsed data rows. -/
def process_csv_upload (db : DbState) (rows : List CsvRow) : ImportLoopState :=
  rows.foldl processCsvRow
    { db := db
      results := { success := 0, created := 0, updated := 0, errors := [], total := 0 }
      rowNum := 1, quantityVar := none }

/-- The quantity of the (first) card with the given id. -/
def cardQuantity (cards : List Card) (id : Nat) : Option Int :=
  (cards.find? (fun c => c.id == id)).map (fun c => c.quantity)

theorem mergeCardFields_id (c : Card) (q : Int) (d : CardData) :
    (mergeCardFields c q d).id = c.id := by
  simp only [mergeCardFields]
  split <;> split <;> split <;> rfl

theorem mergeCardFields_quantity (c : Card) (q : Int) (d : CardData) :
    (mergeCardFields c q d).quantity = c.quantity + q := by
  simp only [mergeCardFields]
  split <;> split <;> split <;> rfl

theorem find?_id_of_nodup (l : List Card) (c : Card) (hmem : c ∈ l)
    (hnodup : (l.map (fun x => x.id)).Nodup) :
    l.find? (fun x => x.id == c.id) = some c := by
  induction l with
  | nil => cases hmem
  | cons h t ih =>
    rcases List.mem_cons.1 hmem with rfl | hmem'
    · simp [List.find?]
    · rw [List.map_cons] at hnodup
      rcases List.nodup_cons.1 hnodup with ⟨hnotin, hrest⟩
      have hid : (h.id == c.id) = false := by
        refine beq_eq_false_iff_ne.2 (fun heq => hnotin ?_)
        rw [heq]
        exact List.mem_map.2 ⟨c, hmem', rfl⟩
      simp only [List.find?, hid]
      exact ih hmem' hrest

/-- The price 1.50 as a rational in lowest terms (written as an explicit
numerator/denominator pair so that it evaluates by structural reduction). -/
def ratOneFifty : Rat := ⟨3, 2, by decide, by norm_num⟩

/-- The one-row CSV of the spec's example: `name=Bolt, set_name=Core,
rarity=Common, condition=Near Mint, price=1.50, quantity=10, foiling=NF,
art_style=normal`. -/
def boltRow : CsvRow :=
  { name := some "Bolt", set_name := some "Core", rarity := some "Common"
    condition := some "Near Mint", price := .val ratOneFifty, quantity := .val 10
    description := none, image := none, foiling := some "NF"
    art_style := some "normal" }

/-- An empty catalog. -/
def emptyDb : DbState := { cards := [], next_id := 1 }

/-- The claimed outcome of importing, into loop state `s`, a valid row that
matches `existing`: the catalog keeps its row count, the matched card's
quantity grows by the row quantity `q`, and the row is counted as one
updated success with no error. -/
def CsvMergeOutcome (s : ImportLoopState) (row : CsvRow) (existing : Card)
    (q : Int) : Prop :=
  (processCsvRow s row).db.cards.length = s.db.cards.length ∧
  cardQuantity (processCsvRow s row).db.cards existing.id =
    some (existing.quantity + q) ∧
  (processCsvRow s row).results.updated = s.results.updated + 1 ∧
  (processCsvRow s row).results.success = s.results.success + 1 ∧
  (processCsvRow s row).results.created = s.results.created ∧
  (processCsvRow s row).results.errors = s.results.errors

/-- **C3.** A valid CSV row whose six identity fields exactly match an
existing non-deleted card adds the row's quantity to that card and creates
no new row, counting the row as `updated` (success and error counters as
claimed); consequently (second conjunct) importing the spec's one-row Bolt
CSV twice into an empty catalog yields a single card row of quantity 20,
not two rows. -/
theorem csv_import_merges_duplicates :
    (∀ (s : ImportLoopState) (row : CsvRow) (existing : Card) (q : Int),
      row.quantity = NumCell.val q →
      (∀ str, row.price ≠ NumCell.bad str) →
      pyStrip (row.name.getD "") ≠ "" →
      find_existing_card s.db.cards (pyStrip (row.name.getD ""))
        (pyStrip (row.set_name.getD "Unknown")) (pyStrip (row.rarity.getD "Common"))
        (pyStrip (row.condition.getD "Near Mint")) (pyStrip (row.foiling.getD "NF"))
        (pyStrip (row.art_style.getD "normal")) = some existing →
      (s.db.cards.map (fun c => c.id)).Nodup →
      CsvMergeOutcome s row existing q) ∧
    ((process_csv_upload emptyDb [boltRow]).db.cards.map
        (fun c => (c.name, c.quantity)) = [("Bolt", 10)] ∧
     (process_csv_upload emptyDb [boltRow]).results.created = 1 ∧
     (process_csv_upload
        (process_csv_upload emptyDb [boltRow]).db [boltRow]).db.cards.map
        (fun c => (c.name, c.quantity)) = [("Bolt", 20)] ∧
     (process_csv_upload
        (process_csv_upload emptyDb [boltRow]).db [boltRow]).db.cards.length = 1 ∧
     (process_csv_upload
        (process_csv_upload emptyDb [boltRow]).db [boltRow]).results.updated = 1) := by
  constructor
  · intro s row existing q hq hp hname hfind hnodup
    unfold CsvMergeOutcome
    have hmem : existing ∈ s.db.cards := List.mem_of_find?_eq_some hfind
    have hbeq : (pyStrip (row.name.getD "") == "") = false :=
      beq_eq_false_iff_ne.2 hname
    have hany : s.db.cards.any (fun c => c.id == existing.id) = true :=
      List.any_eq_true.2 ⟨existing, hmem, beq_self_eq_true existing.id⟩
    have hres : processCsvRow s row =
        persistCsvRow
          { s with
            rowNum := s.rowNum + 1
            results := { s.results with total := s.results.total + 1 }
            quantityVar := some q }
          row (pyStrip (row.name.getD ""))
          (match row.price with | .val p => p | _ => 0) q := by
      rcases hpr : row.price with _ | p | ps
      · simp [processCsvRow, hbeq, hpr, hq]
      · simp [processCsvRow, hbeq, hpr, hq]
      · exact absurd hpr (hp ps)
    rw [hres]
    simp only [persistCsvRow, rowCardData, hfind,
      update_existing_card_quantity, hany, if_true]
    refine ⟨by simp, ?_, by simp, by simp, by simp, by simp⟩
    simp only [cardQuantity, List.find?_map]
    have hcomp :
        (fun c => (if c.id == existing.id then
            mergeCardFields c q (rowCardData row (pyStrip (row.name.getD ""))
              (match row.price with | .val p => p | _ => 0) q) else c).id
          == existing.id) =
        (fun c : Card => c.id == existing.id) := by
      funext c
      by_cases hc : (c.id == existing.id) = true
      · simp [hc, mergeCardFields_id]
      · simp only [hc]
        simp only [Bool.not_eq_true] at hc
        simp [hc]
    rw [Function.comp_def]
    simp only [rowCardData] at hcomp ⊢
    rw [hcomp, find?_id_of_nodup s.db.cards existing hmem hnodup]
    simp [mergeCardFields_quantity]
  · refine ⟨by decide, by decide, by decide, by decide, by decide⟩

/-- The catalog row produced by the first Bolt import. -/
def boltCard : Card :=
  { id := 1, name := "Bolt", set_name := "Core", rarity := "Common"
    condition := "Near Mint", price := ratOneFifty, quantity := 10
    description := "", image_url := "", foiling := "NF"
    art_style := "normal", is_deleted := false }

/-- A fresh import loop state over a catalog holding only `boltCard`. -/
def boltState : ImportLoopState :=
  { db := { cards := [boltCard], next_id := 2 }
    results := { success := 0, created := 0, updated := 0, errors := [], total := 0 }
    rowNum := 1, quantityVar := none }

/-- **C3 witness.** The general merge theorem applied to re-importing the
Bolt row into the catalog that already holds the Bolt card. -/
theorem csv_import_merges_duplicates_witness :
    boltRow.quantity = NumCell.val 10 ∧
    (∀ str, boltRow.price ≠ NumCell.bad str) ∧
    pyStrip (boltRow.name.getD "") ≠ "" ∧
    find_existing_card boltState.db.cards (pyStrip (boltRow.name.getD ""))
      (pyStrip (boltRow.set_name.getD "Unknown"))
      (pyStrip (boltRow.rarity.getD "Common"))
      (pyStrip (boltRow.condition.getD "Near Mint"))
      (pyStrip (boltRow.foiling.getD "NF"))
      (pyStrip (boltRow.art_style.getD "normal")) = some boltCard ∧
    (boltState.db.cards.map (fun c => c.id)).Nodup ∧
    CsvMergeOutcome boltState boltRow boltCard 10 :=
  ⟨rfl, fun str h => by simp [boltRow] at h, by decide, by decide, by decide,
   csv_import_merges_duplicates.1 boltState boltRow boltCard 10 rfl
     (fun str h => by simp [boltRow] at h) (by decide) (by decide) (by decide)⟩

/-- A valid data row: `name=Good, price=1, quantity=5`. -/
def goodRow : CsvRow :=
  { name := some "Good", set_name := none, rarity := none
    condition := none, price := .val 1, quantity := .val 5
    description := none, image := none, foiling := none, art_style := none }

/-- A data row whose quantity cell `int()` rejects: `name=Bad, price=1,
quantity=xyz`. -/
def badQtyRow : CsvRow :=
  { name := some "Bad", set_name := none, rarity := none
    condition := none, price := .val 1, quantity := .bad "xyz"
    description := none, image := none, foiling := none, art_style := none }

/-- A data row with an empty name cell. -/
def missingNameRow : CsvRow :=
  { name := some "", set_name := none, rarity := none
    condition := none, price := .val 1, quantity := .val 7
    description := none, image := none, foiling := none, art_style := none }

/-- A data row whose price cell `float()` rejects. -/
def badPriceRow : CsvRow :=
  { name := some "P", set_name := none, rarity := none
    condition := none, price := .bad "abc", quantity := .val 7
    description := none, image := none, foiling := none, art_style := none }

/-- **C4** (behaviour of the code at the claim's inputs). Missing-name and
invalid-price rows are row-scoped as the claim says: the error is recorded,
nothing is persisted from the bad row, and the valid row in the same file
still lands (`success=1`, one error). But an unparsable *quantity* row is
NOT row-scoped: importing `[Good (quantity 5), Bad (quantity "xyz")]` into
an empty catalog records the invalid-quantity error quoting `xyz` AND still
creates a card `Bad` — with quantity 5, the stale value left in the loop's
`quantity` local by the previous row — counting the bad row as a created
success (`success=2`, `created=2`), because the source's invalid-quantity
handler lacks the `continue` that the name and price handlers have. -/
theorem csv_invalid_quantity_row_persisted :
    (process_csv_upload emptyDb [missingNameRow, goodRow]).results.success = 1 ∧
    (process_csv_upload emptyDb [missingNameRow, goodRow]).results.errors =
      ["Row 2: missing card name"] ∧
    (process_csv_upload emptyDb [missingNameRow, goodRow]).db.cards.map
      (fun c => c.name) = ["Good"] ∧
    (process_csv_upload emptyDb [badPriceRow, goodRow]).results.success = 1 ∧
    (process_csv_upload emptyDb [badPriceRow, goodRow]).results.errors =
      ["Row 2: invalid price \"abc\""] ∧
    (process_csv_upload emptyDb [badPriceRow, goodRow]).db.cards.map
      (fun c => c.name) = ["Good"] ∧
    (process_csv_upload emptyDb [goodRow, badQtyRow]).results.errors =
      ["Row 3: invalid quantity \"xyz\""] ∧
    (process_csv_upload emptyDb [goodRow, badQtyRow]).results.success = 2 ∧
    (process_csv_upload emptyDb [goodRow, badQtyRow]).results.created = 2 ∧
    (process_csv_upload emptyDb [goodRow, badQtyRow]).db.cards.map
      (fun c => (c.name, c.quantity)) = [("Good", 5), ("Bad", 5)] := by
  decide

/-! ## C2 — admin order rejection (routes.py, `admin_reject_order`)

Rejection is refused unless the order is `pending`; otherwise each order
line's stock is restored to the pool it was fulfilled from (consignment
row + shop display stock, or direct user inventory, or pure shop stock),
then any credit redeemed against the order is refunded by matching ledger
rows on the `order:<id>%` idempotency-key pattern (modelled as a prefix
match — the keys are machine-generated lowercase strings, so the
case-insensitive `ilike` is a prefix test), and the order becomes
`rejected`. Python id truthiness (`None` or `0` falsy) gates the per-line
case split. The `_locked_user_inventory` helper of the absent
`credit_service` module is modelled from the spec as the lookup of the
user's inventory; its get-or-create behaviour is irrelevant here because a
freshly created empty inventory can never equal an existing item's
`inventory_id`, which the refund guard requires. -/

/-- Python truthiness of an optional integer id. -/
def idTruthy : Option Nat → Bool
  | none => false
  | some n => !(n == 0)

/-- An `OrderItem` row (the columns the rejection logic reads). -/
structure OrderItemRow where
  id : Nat
  card_id : Nat
  inventory_item_id : Option Nat
  seller_user_id : Option Nat
  quantity : Int
deriving Repr, DecidableEq

/-- An `Order` row with its lines. -/
structure OrderRow where
  id : String
  status : String
  items : List OrderItemRow
deriving Repr, DecidableEq

/-- A `ShopInventoryItem` (consignment record) row. -/
structure ShopInvItem where
  id : Nat
  card_id : Nat
  from_user_id : Nat
  source_inventory_item_id : Option Nat
  quantity : Int
deriving Repr, DecidableEq

/-- A `CreditLedger` row (the columns the refund loop reads). -/
structure LedgerRow where
  id : Nat
  user_id : Nat
  amount_vnd : Int
  direction : String
  kind : String
  related_inventory_item_id : Option Nat
  idempotency_key : Option String
deriving Repr, DecidableEq

/-- The database state touched by order rejection. `inventories` maps an
inventory id to its owning user id. -/
structure ShopState where
  cards : List Card
  shop_items : List ShopInvItem
  inv_items : List InvItem
  inventories : List (Nat × Nat)
  ledger : List LedgerRow
  next_ledger_id : Nat
deriving Repr, DecidableEq

/-- Replace the first element satisfying `p` by its image under `f`
(the ORM mutation of the row returned by `.first()`). -/
def updateFirst {α : Type} (p : α → Bool) (f : α → α) : List α → List α
  | [] => []
  | x :: xs => if p x then f x :: xs else x :: updateFirst p f xs

/-- The consignment-row filter of the rejection logic:
`filter_by(card_id=oi.card_id, from_user_id=oi.seller_user_id,
source_inventory_item_id=oi.inventory_item_id)`. -/
def shopMatch (oi : OrderItemRow) (r : ShopInvItem) : Bool :=
  r.card_id == oi.card_id &&
  (match oi.seller_user_id with
   | some u => r.from_user_id == u
   | none => false) &&
  r.source_inventory_item_id == oi.inventory_item_id

/-- `oi.card.quantity += dq` — add `dq` to the quantity of the card with
the given id (no-op when the card row does not exist, as in the source's
`if oi.card:` guard). -/
def bumpCardQuantity (cards : List Card) (card_id : Nat) (dq : Int) : List Card :=
  cards.map (fun c => if c.id == card_id then { c with quantity := c.quantity + dq } else c)

/-- The per-line stock restoration of `admin_reject_order`. -/
def restoreOrderItem (st : ShopState) (oi : OrderItemRow) : ShopState :=
  if idTruthy oi.inventory_item_id && idTruthy oi.seller_user_id then
    match st.shop_items.find? (shopMatch oi) with
    | some _ =>
      -- consigned stock sold from the shop: return to the consignment row
      -- and to the admin display stock
      { st with
        shop_items := updateFirst (shopMatch oi)
          (fun r => { r with quantity := r.quantity + oi.quantity }) st.shop_items
        cards := bumpCardQuantity st.cards oi.card_id oi.quantity }
    | none =>
      -- direct user-inventory sale: return to the user's inventory item
      -- only; admin card stock is NOT modified
      { st with
        inv_items := st.inv_items.map (fun it =>
          if (some it.id) == oi.inventory_item_id then
            { it with quantity := it.quantity + oi.quantity }
          else it) }
  else
    -- pure admin store line: restore admin card stock
    { st with cards := bumpCardQuantity st.cards oi.card_id oi.quantity }

/-- The redemption ledger rows matched by the refund step:
`kind='redeem' AND direction='debit' AND idempotency_key ILIKE
'order:<id>%'`. -/
def redeemRowsFor (ledger : List LedgerRow) (order_id : String) : List LedgerRow :=
  ledger.filter (fun r =>
    r.kind == "redeem" && r.direction == "debit" &&
    (match r.idempotency_key with
     | some k => pyStartswith k ("order:" ++ order_id)
     | none => false))

/-- The per-ledger-row credit refund of `admin_reject_order`: locate the
user's inventory and the redeemed item; when the item belongs to that
inventory, credit back `amount // denomination` units and append a
`revoke` reversal ledger row. -/
def refundRow (order_id : String) (st : ShopState) (row : LedgerRow) : ShopState :=
  match st.inventories.find? (fun inv => inv.2 == row.user_id) with
  | none => st
  | some inv =>
    match row.related_inventory_item_id with
    | none => st
    | some item_id =>
      match st.inv_items.find? (fun it => it.id == item_id) with
      | none => st
      | some item =>
        match st.cards.find? (fun c => c.id == item.card_id) with
        | none => st
        | some card =>
          if item.inventory_id == inv.1 then
            let denom : Int := card.price.floor
            let units : Int := if 0 < denom then Int.fdiv row.amount_vnd denom else 0
            if 0 < units then
              { st with
                inv_items := st.inv_items.map (fun it =>
                  if it.id == item.id then { it with quantity := it.quantity + units }
                  else it)
                ledger := st.ledger ++
                  [{ id := st.next_ledger_id, user_id := row.user_id
                     amount_vnd := row.amount_vnd, direction := "credit"
                     kind := "revoke", related_inventory_item_id := some item.id
                     idempotency_key :=
                       some ("refund:" ++ order_id ++ ":" ++ toString row.id) }]
                next_ledger_id := st.next_ledger_id + 1 }
            else st
          else st

/-- `admin_reject_order` from routes.py: refuse unless `pending`; restore
each line's stock; refund matched credit redemptions; mark the order
`rejected`. -/
def admin_reject_order (st : ShopState) (orders : List OrderRow) (order_id : String) :
    Except String (ShopState × List OrderRow) :=
  match orders.find? (fun o => o.id == order_id) with
  | none => .error "404: order not found"
  | some order =>
    if !(order.status == "pending") then
      .error "Only pending orders can be rejected"
    else
      let st1 := order.items.foldl restoreOrderItem st
      let st2 := (redeemRowsFor st1.ledger order_id).foldl (refundRow order_id) st1
      .ok (st2,
        orders.map (fun o =>
          if o.id == order_id then { o with status := "rejected" } else o))

theorem updateFirst_decomp {α : Type} (p : α → Bool) (f : α → α) (l : List α) (r : α)
    (h : l.find? p = some r) :
    ∃ l1 l2, l = l1 ++ r :: l2 ∧ (∀ x ∈ l1, p x = false) ∧
      updateFirst p f l = l1 ++ f r :: l2 := by
  induction l with
  | nil => simp [List.find?] at h
  | cons x xs ih =>
    by_cases hx : p x = true
    · rw [List.find?_cons_of_pos _ hx] at h
      obtain rfl : x = r := Option.some.inj h
      exact ⟨[], xs, rfl, by simp, by simp [updateFirst, hx]⟩
    · have hx' : p x = false := by simpa using hx
      rw [List.find?_cons_of_neg _ (by simp [hx'])] at h
      obtain ⟨l1, l2, hsplit, hall, hupd⟩ := ih h
      refine ⟨x :: l1, l2, by simp [hsplit], ?_, by simp [updateFirst, hx', hupd]⟩
      intro y hy
      rcases List.mem_cons.1 hy with rfl | hy'
      · exact hx'
      · exact hall y hy'

theorem cardQuantity_bump (cards : List Card) (id : Nat) (dq : Int) (card : Card)
    (h : cards.find? (fun c => c.id == id) = some card) :
    cardQuantity (bumpCardQuantity cards id dq) id =
      some (card.quantity + dq) := by
  have hid : (card.id == id) = true := by
    simpa using List.find?_some h
  unfold cardQuantity bumpCardQuantity
  rw [List.find?_map]
  have hcomp :
      ((fun c : Card => c.id == id) ∘
        (fun c => if c.id == id then { c with quantity := c.quantity + dq } else c)) =
      (fun c : Card => c.id == id) := by
    funext c
    by_cases hc : c.id = id
    · simp [hc]
    · simp [hc]
  rw [hcomp, h]
  simp [beq_iff_eq.1 hid]

/-- **C2.** Rejecting an order is refused unless the order is `pending`
(conjunct 1); a pending order's rejection applies exactly the per-line
stock restoration to every line and marks the order `rejected` (conjunct 5,
stated for orders with no matched credit-redemption ledger rows, so that
the restoration alone accounts for the state change); and the per-line
restoration sends the stock back to the pool the line was fulfilled from:
a pure shop line (no seller) bumps only the shop card's quantity
(conjunct 2), a consigned line (seller and source item set, matching
consignment row present) bumps that consignment row in place AND the shop
card's quantity, leaving user inventories alone (conjunct 3), and a direct
user-inventory line (seller and source item set, no matching consignment
row) bumps only the seller's inventory item, leaving shop cards and
consignment rows unchanged (conjunct 4). -/
theorem admin_reject_order_restores_pools :
    (∀ (st : ShopState) (orders : List OrderRow) (order_id : String) (order : OrderRow),
      orders.find? (fun o => o.id == order_id) = some order →
      order.status ≠ "pending" →
      admin_reject_order st orders order_id =
        .error "Only pending orders can be rejected") ∧
    (∀ (st : ShopState) (oi : OrderItemRow) (card : Card),
      oi.seller_user_id = none →
      st.cards.find? (fun c => c.id == oi.card_id) = some card →
      (restoreOrderItem st oi).cards = bumpCardQuantity st.cards oi.card_id oi.quantity ∧
      cardQuantity (restoreOrderItem st oi).cards oi.card_id =
        some (card.quantity + oi.quantity) ∧
      (restoreOrderItem st oi).shop_items = st.shop_items ∧
      (restoreOrderItem st oi).inv_items = st.inv_items) ∧
    (∀ (st : ShopState) (oi : OrderItemRow) (r : ShopInvItem) (card : Card),
      idTruthy oi.inventory_item_id = true →
      idTruthy oi.seller_user_id = true →
      st.shop_items.find? (shopMatch oi) = some r →
      st.cards.find? (fun c => c.id == oi.card_id) = some card →
      (∃ pre post, st.shop_items = pre ++ r :: post ∧
        (restoreOrderItem st oi).shop_items =
          pre ++ { r with quantity := r.quantity + oi.quantity } :: post) ∧
      cardQuantity (restoreOrderItem st oi).cards oi.card_id =
        some (card.quantity + oi.quantity) ∧
      (restoreOrderItem st oi).inv_items = st.inv_items) ∧
    (∀ (st : ShopState) (oi : OrderItemRow),
      idTruthy oi.inventory_item_id = true →
      idTruthy oi.seller_user_id = true →
      st.shop_items.find? (shopMatch oi) = none →
      (restoreOrderItem st oi).cards = st.cards ∧
      (restoreOrderItem st oi).shop_items = st.shop_items ∧
      (restoreOrderItem st oi).inv_items = st.inv_items.map (fun it =>
        if (some it.id) == oi.inventory_item_id then
          { it with quantity := it.quantity + oi.quantity }
        else it)) ∧
    (∀ (st : ShopState) (orders : List OrderRow) (order_id : String) (order : OrderRow),
      orders.find? (fun o => o.id == order_id) = some order →
      order.status = "pending" →
      redeemRowsFor (order.items.foldl restoreOrderItem st).ledger order_id = [] →
      admin_reject_order st orders order_id =
        .ok (order.items.foldl restoreOrderItem st,
          orders.map (fun o =>
            if o.id == order_id then { o with status := "rejected" } else o))) := by
  refine ⟨?_, ?_, ?_, ?_, ?_⟩
  · intro st orders order_id order hfind hstatus
    have hbeq : (order.status == "pending") = false := beq_eq_false_iff_ne.2 hstatus
    simp [admin_reject_order, hfind, hbeq]
  · intro st oi card hseller hcard
    have hcase : (idTruthy oi.inventory_item_id && idTruthy oi.seller_user_id) = false := by
      simp [hseller, idTruthy]
    refine ⟨?_, ?_, ?_, ?_⟩ <;>
      simp [restoreOrderItem, hcase, cardQuantity_bump st.cards oi.card_id oi.quantity card hcard]
  · intro st oi r card hinv hsell hshop hcard
    refine ⟨?_, ?_, ?_⟩
    · obtain ⟨l1, l2, hsplit, _, hupd⟩ :=
        updateFirst_decomp (shopMatch oi)
          (fun x => { x with quantity := x.quantity + oi.quantity }) st.shop_items r hshop
      exact ⟨l1, l2, hsplit, by simp [restoreOrderItem, hinv, hsell, hshop, hupd]⟩
    · simp [restoreOrderItem, hinv, hsell, hshop,
        cardQuantity_bump st.cards oi.card_id oi.quantity card hcard]
    · simp [restoreOrderItem, hinv, hsell, hshop]
  · intro st oi hinv hsell hshop
    refine ⟨?_, ?_, ?_⟩ <;> simp [restoreOrderItem, hinv, hsell, hshop]
  · intro st orders order_id order hfind hstatus hnoredeem
    simp [admin_reject_order, hfind, hstatus, hnoredeem]

/-- Shop-owned card sold as a pure shop line. -/
def shopCard1 : Card :=
  { id := 1, name := "Alpha Strike", set_name := "Core", rarity := "Common"
    condition := "Near Mint", price := 0, quantity := 5, description := ""
    image_url := "", foiling := "NF", art_style := "normal", is_deleted := false }

/-- Card whose stock was consigned by user 7. -/
def shopCard2 : Card :=
  { id := 2, name := "Beta Guard", set_name := "Core", rarity := "Rare"
    condition := "Near Mint", price := 0, quantity := 3, description := ""
    image_url := "", foiling := "NF", art_style := "normal", is_deleted := false }

/-- Card sold directly from user 8's inventory (never shop stock). -/
def shopCard3 : Card :=
  { id := 3, name := "Gamma Bolt", set_name := "Core", rarity := "Common"
    condition := "Near Mint", price := 0, quantity := 0, description := ""
    image_url := "", foiling := "NF", art_style := "normal", is_deleted := false }

/-- The consignment record for user 7's stock of card 2 (source item 21). -/
def consRow : ShopInvItem :=
  { id := 1, card_id := 2, from_user_id := 7
    source_inventory_item_id := some 21, quantity := 0 }

/-- User 8's inventory item (id 22) that fulfilled the direct line. -/
def directSellerItem : InvItem :=
  { id := 22, inventory_id := 4, card_id := 3, quantity := 0
    condition := "Near Mint", verification_status := "verified"
    is_verified := true, verified_at := none, verified_by := none
    notes := none, grade := none, language := none, foil_type := none
    is_mint := false, updated_at := none }

/-- The pre-rejection database state. -/
def rejectState : ShopState :=
  { cards := [shopCard1, shopCard2, shopCard3]
    shop_items := [consRow]
    inv_items := [directSellerItem]
    inventories := [(4, 8)]
    ledger := []
    next_ledger_id := 1 }

/-- Line fulfilled from pure shop stock. -/
def shopLine : OrderItemRow :=
  { id := 1, card_id := 1, inventory_item_id := none
    seller_user_id := none, quantity := 2 }

/-- Line fulfilled from user 7's consignment of card 2. -/
def consLine : OrderItemRow :=
  { id := 2, card_id := 2, inventory_item_id := some 21
    seller_user_id := some 7, quantity := 1 }

/-- Line fulfilled directly from user 8's inventory item 22. -/
def directLine : OrderItemRow :=
  { id := 3, card_id := 3, inventory_item_id := some 22
    seller_user_id := some 8, quantity := 1 }

/-- The pending order holding the three lines. -/
def pendingOrder : OrderRow :=
  { id := "ORD-20250101-123456", status := "pending"
    items := [shopLine, consLine, directLine] }

/-- An already-confirmed order. -/
def confirmedOrder : OrderRow :=
  { id := "ORD-20250101-654321", status := "confirmed", items := [] }

/-- The order table of the witness scenario. -/
def rejectOrders : List OrderRow := [pendingOrder, confirmedOrder]

/-- **C2 witness.** The theorem applied to the concrete scenario: rejecting
the confirmed order is refused; each of the three line kinds restores its
own pool; rejecting the pending order succeeds and is exactly the per-line
restoration fold with the status flipped to `rejected`. -/
theorem admin_reject_order_restores_pools_witness :
    admin_reject_order rejectState rejectOrders "ORD-20250101-654321" =
      .error "Only pending orders can be rejected" ∧
    ((restoreOrderItem rejectState shopLine).cards =
        bumpCardQuantity rejectState.cards shopLine.card_id shopLine.quantity ∧
      cardQuantity (restoreOrderItem rejectState shopLine).cards shopLine.card_id =
        some (shopCard1.quantity + shopLine.quantity) ∧
      (restoreOrderItem rejectState shopLine).shop_items = rejectState.shop_items ∧
      (restoreOrderItem rejectState shopLine).inv_items = rejectState.inv_items) ∧
    ((∃ pre post, rejectState.shop_items = pre ++ consRow :: post ∧
        (restoreOrderItem rejectState consLine).shop_items =
          pre ++ { consRow with quantity := consRow.quantity + consLine.quantity } :: post) ∧
      cardQuantity (restoreOrderItem rejectState consLine).cards consLine.card_id =
        some (shopCard2.quantity + consLine.quantity) ∧
      (restoreOrderItem rejectState consLine).inv_items = rejectState.inv_items) ∧
    ((restoreOrderItem rejectState directLine).cards = rejectState.cards ∧
      (restoreOrderItem rejectState directLine).shop_items = rejectState.shop_items ∧
      (restoreOrderItem rejectState directLine).inv_items =
        rejectState.inv_items.map (fun it =>
          if (some it.id) == directLine.inventory_item_id then
            { it with quantity := it.quantity + directLine.quantity }
          else it)) ∧
    admin_reject_order rejectState rejectOrders "ORD-20250101-123456" =
      .ok (pendingOrder.items.foldl restoreOrderItem rejectState,
        rejectOrders.map (fun o =>
          if o.id == "ORD-20250101-123456" then { o with status := "rejected" } else o)) :=
  ⟨admin_reject_order_restores_pools.1 rejectState rejectOrders
      "ORD-20250101-654321" confirmedOrder (by decide) (by decide),
   admin_reject_order_restores_pools.2.1 rejectState shopLine shopCard1
      rfl (by decide),
   admin_reject_order_restores_pools.2.2.1 rejectState consLine consRow shopCard2
      (by decide) (by decide) (by decide) (by decide),
   admin_reject_order_restores_pools.2.2.2.1 rejectState directLine
      (by decide) (by decide) (by decide),
   admin_reject_order_restores_pools.2.2.2.2 rejectState rejectOrders
      "ORD-20250101-123456" pendingOrder (by decide) rfl (by decide)⟩

end LotusTCG
